import Mathlib

/-!
Verification of the SeatLive frontend's aggregation core
(`src/streamlit_app.py`) against its natural-language specification.

The Python source is shallowly embedded below: pandas DataFrames become
lists of records, Firebase reads become explicit fetch functions with an
`Except` failure channel, and floating-point occupancy values become
exact rationals.  Definitions come first, theorems after.
-/

namespace SeatLive

/-! ## Week Window Resolver

Embeds the loop at `src/streamlit_app.py:222-235`:

    weeks_to_fetch = []
    for i in range(12):
        week_num = current_week - i
        if week_num > 0:
            weeks_to_fetch.append(week_num)
        else:
            previous_year_week = 53 + week_num
            if previous_year_week > 0:
                weeks_to_fetch.append(previous_year_week)

`weekStep` is one loop iteration (returning the appended value, if any);
`weeksToFetch` is the whole loop, generalized over the lookback depth
(the source fixes it to 12). -/

def weekStep (currentWeek : Int) (i : Nat) : Option Int :=
  if currentWeek - i > 0 then some (currentWeek - i)
  else if 53 + (currentWeek - i) > 0 then some (53 + (currentWeek - i)) else none

def weeksToFetch (lookback : Nat) (currentWeek : Int) : List Int :=
  (List.range lookback).filterMap (weekStep currentWeek)

/-! ## Occupancy records and the weekday-profile pipeline

Embeds `get_weekday_aggregated_occupancy` (`src/streamlit_app.py:206-297`).
A `detail_data` row becomes an `OccupancyRecord`; the Firebase read
`db.reference(f'/occupancy_statistics/week_{week_num}').get()` becomes a
`fetch` function returning `Except Unit (Option (List OccupancyRecord))`,
where `Except.error` models a raised transport/store exception and `none`
models a missing week or a missing `detail_data` key.  Occupancy counts
are rationals (pandas floats modelled exactly). -/

structure OccupancyRecord where
  datetime : String
  weekday : Nat
  weekday_zh : String
  time_interval : String
  occupancy_count : ℚ
deriving DecidableEq

/-- The fetch loop at `src/streamlit_app.py:241-247`: read each week in
`weeks_to_fetch` order and keep the weeks whose `detail_data` frame is
non-empty, in that order.  A raised exception anywhere propagates (the
source's single `try` block starts at line 217). -/
def collectWeeks (fetch : Int → Except Unit (Option (List OccupancyRecord))) :
    List Int → Except Unit (List (Int × List OccupancyRecord))
  | [] => Except.ok []
  | w :: rest =>
    match fetch w with
    | Except.error e => Except.error e
    | Except.ok data =>
      match collectWeeks fetch rest with
      | Except.error e => Except.error e
      | Except.ok tail =>
        match data with
        | some recs =>
          if recs.isEmpty then Except.ok tail else Except.ok ((w, recs) :: tail)
        | none => Except.ok tail

/-- `weekday_data_by_week[weekday]` (`src/streamlit_app.py:252-260`): for each
fetched week in recency order, its records filtered to one weekday, keeping
only weeks where that filtered frame is non-empty. -/
def weekdayDataByWeek (results : List (Int × List OccupancyRecord))
    (weekday : Nat) : List (Int × List OccupancyRecord) :=
  results.filterMap (fun p =>
    if (p.2.filter (fun r => r.weekday == weekday)).isEmpty then none
    else some (p.1, p.2.filter (fun r => r.weekday == weekday)))

/-- `weekday_data_by_week[weekday][0]` (`src/streamlit_app.py:262-267`): the
most recent week with data for this weekday, since the list is built in
`weeks_to_fetch` (new-to-old) order. -/
def latestPair (results : List (Int × List OccupancyRecord)) (weekday : Nat) :
    Option (Int × List OccupancyRecord) :=
  (weekdayDataByWeek results weekday).head?

/-- The selected week's records for one weekday (empty when no week in the
window has data for it). -/
def selData (results : List (Int × List OccupancyRecord)) (weekday : Nat) :
    List OccupancyRecord :=
  ((latestPair results weekday).map Prod.snd).getD []

/-- `all_latest_data` (`src/streamlit_app.py:263-268`): the per-weekday
selected record sets, weekdays 0..4 in order, skipping weekdays with no
data anywhere in the window. -/
def allLatestData (results : List (Int × List OccupancyRecord)) :
    List (List OccupancyRecord) :=
  (List.range 5).filterMap (fun wd => (latestPair results wd).map Prod.snd)

/-- `combined_df = pd.concat(all_latest_data)` (`src/streamlit_app.py:274`). -/
def combinedOf (results : List (Int × List OccupancyRecord)) :
    List OccupancyRecord :=
  (allLatestData results).flatten

/-- The groupby key at `src/streamlit_app.py:277`:
`['weekday', 'weekday_zh', 'time_interval']`. -/
def recordKey (r : OccupancyRecord) : Nat × String × String :=
  (r.weekday, r.weekday_zh, r.time_interval)

/-- Arithmetic mean of `occupancy_count` over a record list (pandas
`.agg({'occupancy_count': 'mean'})`). -/
def meanOcc (l : List OccupancyRecord) : ℚ :=
  (l.map (fun r => r.occupancy_count)).sum / l.length

/-- Round half-to-even to an integer, the rounding mode of numpy/pandas
`.round`. -/
def halfEvenRound (q : ℚ) : ℤ :=
  if q - ⌊q⌋ < 1/2 then ⌊q⌋
  else if q - ⌊q⌋ > 1/2 then ⌊q⌋ + 1
  else if Even ⌊q⌋ then ⌊q⌋ else ⌊q⌋ + 1

/-- `.round(1)` (`src/streamlit_app.py:281`). -/
def round1 (q : ℚ) : ℚ := (halfEvenRound (10 * q) : ℚ) / 10

/-- The groupby-mean-round at `src/streamlit_app.py:277-281`: one output row
per distinct `(weekday, weekday_zh, time_interval)` key present in
`combined_df`, carrying the rounded mean of that key's group. -/
def aggregate (combined : List OccupancyRecord) :
    List ((Nat × String × String) × ℚ) :=
  ((combined.map recordKey).dedup).map
    (fun k => (k, round1 (meanOcc (combined.filter (fun r => recordKey r == k)))))

/-- `get_weekday_aggregated_occupancy` down to the aggregated frame
(`src/streamlit_app.py:217-281`): any exception raised inside the single
`try` block is caught and the function returns `None`
(`src/streamlit_app.py:295-297`); `None` is also returned when no weekday
found any data (`src/streamlit_app.py:270-271`).  The subsequent per-weekday
split and hour/minute parsing (lines 283-293) only reshape this frame for
display and are modelled at the display stage below. -/
def getWeekdayAggregatedOccupancy
    (fetch : Int → Except Unit (Option (List OccupancyRecord)))
    (currentWeek : Int) : Option (List ((Nat × String × String) × ℚ)) :=
  match collectWeeks fetch (weeksToFetch 12 currentWeek) with
  | Except.error _ => none
  | Except.ok results =>
    if (allLatestData results).isEmpty then none
    else some (aggregate (combinedOf results))

/-! ## Display stage: `display_live_statistics`

Embeds `src/streamlit_app.py:583-674`.  Its input `weekday_data` is the
dict produced at lines 283-293: weekday 0..4 mapped to rows carrying the
parsed `hour`/`minute` of the interval start plus the aggregated
`occupancy_count`.  We model that dict as an association list of
`ChartRow` lists, and a rendered bar (the `add_shape` rectangle plus its
color) as a `ChartShape`. -/

structure ChartRow where
  hour : Int
  minute : Int
  occupancy_count : ℚ
deriving DecidableEq

structure ChartShape where
  time_position : ℚ
  height : ℚ
  color : String
deriving DecidableEq

/-- Dict access `weekday_data[weekday]` (`if weekday in weekday_data`). -/
def dictGet {α : Type} (d : List (Nat × α)) (k : Nat) : Option α :=
  (d.find? (fun p => p.1 == k)).map Prod.snd

/-- The hour filter `(hour >= 9) & (hour < 21)`
(`src/streamlit_app.py:588,605`). -/
def inHourRange (r : ChartRow) : Bool :=
  (9 ≤ r.hour) && (r.hour < 21)

/-- One weekday's rows after the hour filter; `[]` when the weekday is
absent from the dict. -/
def filteredRows (d : List (Nat × List ChartRow)) (wd : Nat) : List ChartRow :=
  ((dictGet d wd).getD []).filter inHourRange

/-- Maximum of a rational list, pandas `.max()` style (only used on
non-empty lists; `0` for the empty list). -/
def qMax (l : List ℚ) : ℚ :=
  match l with
  | [] => 0
  | x :: xs => xs.foldl max x

def rowsMax (rows : List ChartRow) : ℚ :=
  qMax (rows.map (fun r => r.occupancy_count))

/-- One iteration of the `all_max_occupancy` loop
(`src/streamlit_app.py:584-592`). -/
def maxStep (d : List (Nat × List ChartRow)) (acc : ℚ) (wd : Nat) : ℚ :=
  match dictGet d wd with
  | none => acc
  | some rows =>
    if (rows.filter inHourRange).isEmpty then acc
    else if rowsMax (rows.filter inHourRange) > acc then
      rowsMax (rows.filter inHourRange)
    else acc

/-- `all_max_occupancy` (`src/streamlit_app.py:584-592`): starts at 1,
raised to the in-hour-range maximum across all five weekdays. -/
def allMaxOccupancy (d : List (Nat × List ChartRow)) : ℚ :=
  (List.range 5).foldl (maxStep d) 1

/-- One rendered bar (`src/streamlit_app.py:612-636`): time-axis position,
normalized height, and fill color. -/
def renderRow (allMax : ℚ) (r : ChartRow) : ChartShape :=
  { time_position := ((r.hour : ℚ) - 9) + (r.minute : ℚ) / 60
    height := if allMax > 0 then r.occupancy_count / allMax * 0.8 else 0
    color :=
      if r.occupancy_count ≥ allMax * 0.8 then "#d946a6"
      else if r.occupancy_count ≥ allMax * 0.5 then "#94a3b8"
      else "#94a3b8" }

/-- All bars of one weekday's tab (`src/streamlit_app.py:598-636`); empty
when the weekday is absent or its filtered frame is empty. -/
def renderWeekday (d : List (Nat × List ChartRow)) (wd : Nat) :
    List ChartShape :=
  (filteredRows d wd).map (renderRow (allMaxOccupancy d))

/-- The five tabs (`src/streamlit_app.py:595-636`). -/
def displayCharts (d : List (Nat × List ChartRow)) :
    List (Nat × List ChartShape) :=
  (List.range 5).map (fun wd => (wd, renderWeekday d wd))

/-- The input dict with every row outside the 9:00-20:59 window removed
(used to state that out-of-range rows never influence the display). -/
def restrictInRange (d : List (Nat × List ChartRow)) :
    List (Nat × List ChartRow) :=
  d.map (fun p => (p.1, p.2.filter inHourRange))

/-- Modelled from the spec: the Chart Normalizer's per-chart maximum as the
claim words it — "maxVal = max(occupancy_count) over the set, or 1 if the
set is empty or max is 0".  The source has no such per-chart computation
(it shares one `all_max_occupancy` across the five charts); this definition
exists only to compare the claim against the code. -/
def chartMaxValSpec (counts : List ℚ) : ℚ :=
  if counts.isEmpty || (qMax counts == 0) then 1 else qMax counts

/-- Modelled from the spec: the per-chart height the claim describes,
`(occupancy_count / maxVal) * 0.8` with `maxVal` per chart. -/
def specHeight (count : ℚ) (counts : List ℚ) : ℚ :=
  count / chartMaxValSpec counts * 0.8

/-! ## Live seat status: `display_live_seat_status`

Embeds `src/streamlit_app.py:300-393`.  The DataFrame built by
`get_seat_status` (lines 186-199) becomes a list of `Seat`s. -/

structure Seat where
  seat_id : String
  status : String
  status_zh : String
  last_update : String
deriving DecidableEq

/-- `total_seats = len(df)` (`src/streamlit_app.py:311`). -/
def totalSeats (df : List Seat) : Nat := df.length

/-- `occupied_seats = len(df[df['status'] == 'occupied'])`
(`src/streamlit_app.py:312`). -/
def occupiedSeats (df : List Seat) : Nat :=
  (df.filter (fun s => s.status == "occupied")).length

/-- `available_seats = total_seats - occupied_seats`
(`src/streamlit_app.py:313`). -/
def availableSeats (df : List Seat) : Nat := totalSeats df - occupiedSeats df

/-- `occupancy_rate` (`src/streamlit_app.py:314`). -/
def occupancyRate (df : List Seat) : ℚ :=
  if totalSeats df > 0 then (occupiedSeats df : ℚ) / (totalSeats df : ℚ) * 100
  else 0

/-- The rate color banding (`src/streamlit_app.py:347-352`): green `≤ 30`,
yellow `≤ 70`, red otherwise. -/
def rateColor (df : List Seat) : String :=
  if occupancyRate df ≤ 30 then "#51cf66"
  else if occupancyRate df ≤ 70 then "#ffd43b"
  else "#ff6b6b"

/-- The fixed 16-seat layout `seat_positions`
(`src/streamlit_app.py:366-378`). -/
def seatPositions : List (String × ℚ × ℚ) :=
  [("W1", 1, 5), ("W2", 2, 5), ("W3", 3, 5),
   ("W4", 4, 5), ("W5", 5, 5), ("W6", 6, 5),
   ("W7", 7, 4), ("W8", 7, 3), ("W9", 7, 2),
   ("W10", 7, 1), ("W11", 7, 0), ("W12", 7, -1),
   ("T1", 3/2, 5/2), ("T2", 9/2, 5/2),
   ("T3", 3/2, 0), ("T4", 9/2, 0)]

/-- The status lookup at `src/streamlit_app.py:383`: the first matching
row's status, or `'available'` when the seat id is absent from the
snapshot. -/
def lookupStatus (df : List Seat) (sid : String) : String :=
  match df.find? (fun s => s.seat_id == sid) with
  | some s => s.status
  | none => "available"

structure SeatMarker where
  seat_id : String
  x : ℚ
  y : ℚ
  status_label : String
  color : String
  size : Nat
deriving DecidableEq

/-- `seat_data` (`src/streamlit_app.py:380-393`): one marker per layout
seat; occupied exactly when the looked-up status equals `"occupied"`. -/
def seatData (df : List Seat) : List SeatMarker :=
  seatPositions.map (fun p =>
    let status := lookupStatus df p.1
    let isOccupied := status == "occupied"
    { seat_id := p.1
      x := p.2.1
      y := p.2.2
      status_label := if isOccupied then "佔用" else "空位"
      color := if isOccupied then "#ff6b6b" else "#51cf66"
      -- seat_id.startswith('T'): table seats are drawn larger
      size := if p.1.data.head? == some 'T' then 80 else 40 })

/-! ## Concrete inputs used by counterexamples and witnesses -/

/-- A fetch behaviour where week 40 has data, week 39 raises a transport
error, and every other week is unpopulated. -/
def fetchEx : Int → Except Unit (Option (List OccupancyRecord)) :=
  fun n =>
    if n = 40 then Except.ok (some [⟨"d1", 0, "週一", "09:00-09:15", 4⟩])
    else if n = 39 then Except.error ()
    else Except.ok none

/-- A combined frame with a `(weekday 0, 09:00-09:15)` group holding counts
`[4, 6]` and a `(weekday 0, 09:15-09:30)` group holding `[3]`. -/
def aggExample : List OccupancyRecord :=
  [⟨"d1", 0, "週一", "09:00-09:15", 4⟩, ⟨"d2", 0, "週一", "09:00-09:15", 6⟩,
   ⟨"d3", 0, "週一", "09:15-09:30", 3⟩]

/-- Fetched weeks where weekday 0 has data both in week 41 (counts `[4, 6]`)
and in the older week 39 (count `[100]`). -/
def resultsC3 : List (Int × List OccupancyRecord) :=
  [(41, [⟨"a", 0, "週一", "09:00-09:15", 4⟩, ⟨"b", 0, "週一", "09:00-09:15", 6⟩]),
   (39, [⟨"c", 0, "週一", "09:00-09:15", 100⟩])]

/-- A display input with one weekday whose two in-range buckets both hold
count 0. -/
def chartEx00 : List (Nat × List ChartRow) := [(0, [⟨9, 0, 0⟩, ⟨10, 0, 0⟩])]

/-- A display input with one weekday holding in-range counts `[2, 8]`. -/
def chartEx28 : List (Nat × List ChartRow) := [(0, [⟨9, 0, 2⟩, ⟨10, 0, 8⟩])]

/-- A display input whose two charts hold one point each: count 2 on
weekday 0 and count 8 on weekday 1. -/
def chartExSplit : List (Nat × List ChartRow) :=
  [(0, [⟨9, 0, 2⟩]), (1, [⟨9, 0, 8⟩])]

/-- A display input whose only row sits at hour 8, outside the rendered
9:00-20:59 window. -/
def chartExOut : List (Nat × List ChartRow) := [(0, [⟨8, 0, 50⟩])]

/-- A snapshot mentioning only seats W1 (occupied) and W2 (status
`"unknown"`); the other 14 layout seats are absent. -/
def dfC10 : List Seat :=
  [⟨"W1", "occupied", "佔用", "t"⟩, ⟨"W2", "unknown", "未知", "t"⟩]

/-- A 16-seat snapshot with 5 occupied seats. -/
def dfEx16 : List Seat :=
  [⟨"T1", "occupied", "佔用", "t"⟩, ⟨"T2", "occupied", "佔用", "t"⟩,
   ⟨"T3", "occupied", "佔用", "t"⟩, ⟨"T4", "occupied", "佔用", "t"⟩,
   ⟨"W1", "occupied", "佔用", "t"⟩, ⟨"W2", "available", "空位", "t"⟩,
   ⟨"W3", "available", "空位", "t"⟩, ⟨"W4", "available", "空位", "t"⟩,
   ⟨"W5", "available", "空位", "t"⟩, ⟨"W6", "available", "空位", "t"⟩,
   ⟨"W7", "available", "空位", "t"⟩, ⟨"W8", "available", "空位", "t"⟩,
   ⟨"W9", "available", "空位", "t"⟩, ⟨"W10", "available", "空位", "t"⟩,
   ⟨"W11", "available", "空位", "t"⟩, ⟨"W12", "available", "空位", "t"⟩]

/-! ## Theorems -/

theorem weekStep_eq_some (W : Int) (n : Nat) (h : (n : Int) < W + 53) :
    weekStep W n = some (if (n : Int) < W then W - n else 53 + (W - n)) := by
  unfold weekStep
  by_cases hw : (n : Int) < W
  · rw [if_pos (by omega), if_pos hw]
  · rw [if_neg (by omega), if_pos (by omega), if_neg hw]

theorem weekStep_eq_none (W : Int) (n : Nat) (h : W + 53 ≤ n) :
    weekStep W n = none := by
  unfold weekStep
  rw [if_neg (by omega), if_neg (by omega)]

/-- Closed form of the resolver: the loop keeps exactly the first
`min L (W + 53)` indices, emitting `W - i` before the year boundary and
`53 + (W - i)` after it. -/
theorem weeksToFetch_eq_map (L : Nat) (W : Int) :
    weeksToFetch L W =
      (List.range (min L (W + 53).toNat)).map
        (fun (i : Nat) => if (i : Int) < W then W - i else 53 + (W - i)) := by
  induction L with
  | zero => simp [weeksToFetch]
  | succ n ih =>
    rw [weeksToFetch, List.range_succ, List.filterMap_append]
    rw [weeksToFetch] at ih
    rw [ih]
    by_cases h : (n : Int) < W + 53
    · have hK : n < (W + 53).toNat := by omega
      have h1 : min (n + 1) (W + 53).toNat = min n (W + 53).toNat + 1 := by omega
      have h2 : min n (W + 53).toNat = n := by omega
      rw [h1, h2, List.range_succ, List.map_append]
      congr 1
      simp [weekStep_eq_some W n h]
    · have h1 : min (n + 1) (W + 53).toNat = min n (W + 53).toNat := by omega
      rw [h1]
      simp [weekStep_eq_none W n (by omega)]

/-- C1: for every lookback depth `L ≥ 1` and current ISO week `W` in `1..53`,
the Week Window Resolver returns exactly `L` entries minus the dropped invalid
wraparound remaps (i.e. `min L (W + 53)` entries); every returned entry is a
positive integer `≤ 53`; and the sequence is strictly most-recent-first, with
entry `i` equal to `W - i` when `W - i > 0` and to `53 + (W - i)` otherwise. -/
theorem weekWindowResolver_correct (L : Nat) (W : Int)
    (_hL : 1 ≤ L) (hW1 : 1 ≤ W) (hW2 : W ≤ 53) :
    (weeksToFetch L W).length = min L (W + 53).toNat ∧
    (∀ w ∈ weeksToFetch L W, 0 < w ∧ w ≤ 53) ∧
    weeksToFetch L W =
      (List.range (min L (W + 53).toNat)).map
        (fun (i : Nat) => if (i : Int) < W then W - i else 53 + (W - i)) := by
  refine ⟨?_, ?_, weeksToFetch_eq_map L W⟩
  · rw [weeksToFetch_eq_map]
    simp
  · intro w hw
    rw [weeksToFetch_eq_map] at hw
    rcases List.mem_map.mp hw with ⟨i, hi, hfi⟩
    rcases List.mem_range.mp hi with hi'
    by_cases hiw : (i : Int) < W
    · rw [if_pos hiw] at hfi
      omega
    · rw [if_neg hiw] at hfi
      omega

theorem weekWindowResolver_correct_witness :
    1 ≤ 12 ∧ 1 ≤ (2 : Int) ∧ (2 : Int) ≤ 53 ∧
    ((weeksToFetch 12 2).length = min 12 ((2 : Int) + 53).toNat ∧
     (∀ w ∈ weeksToFetch 12 2, 0 < w ∧ w ≤ 53) ∧
     weeksToFetch 12 2 =
       (List.range (min 12 ((2 : Int) + 53).toNat)).map
         (fun (i : Nat) => if (i : Int) < 2 then (2 : Int) - i else 53 + ((2 : Int) - i))) :=
  ⟨by decide, by decide, by decide,
   weekWindowResolver_correct 12 2 (by decide) (by decide) (by decide)⟩

/-- C6 counterexample: at current week `W = 0` the resolver does not fail; it
silently remaps every candidate through the `53 + candidate` rule and produces
the non-empty week list `[53, 52, ..., 42]`, contradicting "fails fast instead
of producing a week list". -/
theorem weekWindowResolver_nonpositive_counterexample :
    weeksToFetch 12 0 = [53, 52, 51, 50, 49, 48, 47, 46, 45, 44, 43, 42] ∧
    weeksToFetch 12 0 ≠ [] := by
  constructor
  · rfl
  · decide

/-- C6 amended: for every current-week input `W ≤ 0` the Week Window Resolver
does not fail fast; it silently remaps every candidate `W - i` to
`53 + (W - i)` and returns the positive remapped values, most recent first
(the list `53 + W - i` for `i < min 12 (W + 53)`). -/
theorem weekWindowResolver_nonpositive_amended (W : Int) (hW : W ≤ 0) :
    weeksToFetch 12 W =
      (List.range (min 12 (W + 53).toNat)).map
        (fun (i : Nat) => 53 + (W - i)) := by
  rw [weeksToFetch_eq_map]
  apply List.map_congr_left
  intro i hi
  rw [if_neg (by omega)]

theorem weekWindowResolver_nonpositive_amended_witness :
    (-1 : Int) ≤ 0 ∧
    weeksToFetch 12 (-1) =
      (List.range (min 12 ((-1 : Int) + 53).toNat)).map
        (fun (i : Nat) => 53 + ((-1 : Int) - i)) :=
  ⟨by decide, weekWindowResolver_nonpositive_amended (-1) (by decide)⟩

theorem any_eq_not_isEmpty_filter {α : Type} (l : List α) (q : α → Bool) :
    l.any q = !(l.filter q).isEmpty := by
  induction l with
  | nil => rfl
  | cons a t ih =>
    cases h : q a <;> simp [List.filter_cons, h, ih]

/-- C2: for each weekday independently, the selector returns the first week
(in the resolver's recency-first order) whose records contain at least one
record for that weekday, and ignores all later (older) weeks; concretely,
with weekday-0 data in week 41 and in week 39, the selected source week is
41 under either record ordering inside the weeks. -/
theorem weekdaySelector_picks_first :
    (∀ (results : List (Int × List OccupancyRecord)) (weekday : Nat),
      latestPair results weekday =
        (results.find? (fun p => p.2.any (fun r => r.weekday == weekday))).map
          (fun p => (p.1, p.2.filter (fun r => r.weekday == weekday)))) ∧
    ((latestPair
        [(41, [⟨"d1", 0, "週一", "09:00-09:15", 4⟩, ⟨"d2", 0, "週一", "09:15-09:30", 6⟩]),
         (39, [⟨"d3", 0, "週一", "09:00-09:15", 9⟩])] 0).map Prod.fst = some 41 ∧
     (latestPair
        [(41, [⟨"d2", 0, "週一", "09:15-09:30", 6⟩, ⟨"d1", 0, "週一", "09:00-09:15", 4⟩]),
         (39, [⟨"d3", 0, "週一", "09:00-09:15", 9⟩])] 0).map Prod.fst = some 41) := by
  refine ⟨?_, by decide, by decide⟩
  intro results weekday
  induction results with
  | nil => rfl
  | cons p rest ih =>
    unfold latestPair weekdayDataByWeek
    unfold latestPair weekdayDataByWeek at ih
    rw [List.filterMap_cons, List.find?_cons]
    cases hq : p.2.any (fun r => r.weekday == weekday) with
    | false =>
      have hempty : (p.2.filter (fun r => r.weekday == weekday)).isEmpty = true := by
        rw [any_eq_not_isEmpty_filter] at hq
        simpa using hq
      simpa [hempty] using ih
    | true =>
      have hempty : (p.2.filter (fun r => r.weekday == weekday)).isEmpty = false := by
        rw [any_eq_not_isEmpty_filter] at hq
        simpa using hq
      simp [hempty]

theorem round1_intCast (n : ℤ) : round1 (n : ℚ) = n := by
  unfold round1 halfEvenRound
  have h10 : (10 : ℚ) * (n : ℚ) = ((10 * n : ℤ) : ℚ) := by push_cast; ring
  rw [h10, Int.floor_intCast]
  have hc : ((10 * n : ℤ) : ℚ) - ((10 * n : ℤ) : ℚ) < 1/2 := by norm_num
  rw [if_pos hc]
  push_cast
  field_simp

/-- C8: the Interval Aggregator groups by exact key equality and outputs the
rounded-to-one-decimal mean of each group under the fixed half-to-even
rounding mode; every emitted bucket has a non-empty group; concretely, a
`(weekday, interval)` group with counts `[4, 6]` yields exactly `5.0` and a
group with `[3]` yields `3.0`. -/
theorem intervalAggregator_correct :
    (∀ (combined : List OccupancyRecord) (k : Nat × String × String) (v : ℚ),
      (k, v) ∈ aggregate combined →
        combined.filter (fun r => recordKey r == k) ≠ [] ∧
        v = round1 (meanOcc (combined.filter (fun r => recordKey r == k)))) ∧
    aggregate aggExample =
      [((0, "週一", "09:00-09:15"), 5), ((0, "週一", "09:15-09:30"), 3)] := by
  constructor
  · intro combined k v hmem
    rcases List.mem_map.mp hmem with ⟨k', hk', heq⟩
    have hk : k' = k := congrArg Prod.fst heq
    have hv : v = round1 (meanOcc (combined.filter (fun r => recordKey r == k'))) :=
      (congrArg Prod.snd heq).symm
    subst hk
    obtain ⟨r0, hr0, hr0k⟩ := List.mem_map.mp (List.mem_dedup.mp hk')
    refine ⟨?_, hv⟩
    intro hnil
    have hmemf : r0 ∈ combined.filter (fun r => recordKey r == k') :=
      List.mem_filter.mpr ⟨hr0, by simp [hr0k]⟩
    rw [hnil] at hmemf
    exact absurd hmemf (List.not_mem_nil r0)
  · have hkeys : (aggExample.map recordKey).dedup =
        [(0, "週一", "09:00-09:15"), (0, "週一", "09:15-09:30")] := by decide
    unfold aggregate
    rw [hkeys]
    simp only [List.map_cons, List.map_nil]
    have hf1 : aggExample.filter (fun r => recordKey r == (0, "週一", "09:00-09:15")) =
        [⟨"d1", 0, "週一", "09:00-09:15", 4⟩, ⟨"d2", 0, "週一", "09:00-09:15", 6⟩] := by
      decide
    have hf2 : aggExample.filter (fun r => recordKey r == (0, "週一", "09:15-09:30")) =
        [⟨"d3", 0, "週一", "09:15-09:30", 3⟩] := by decide
    rw [hf1, hf2]
    have hm1 : meanOcc [⟨"d1", 0, "週一", "09:00-09:15", 4⟩,
        ⟨"d2", 0, "週一", "09:00-09:15", 6⟩] = 5 := by
      simp [meanOcc]
      norm_num
    have hm2 : meanOcc [⟨"d3", 0, "週一", "09:15-09:30", 3⟩] = 3 := by
      simp [meanOcc]
    rw [hm1, hm2]
    have hr1 : round1 (5 : ℚ) = 5 := by exact_mod_cast round1_intCast 5
    have hr2 : round1 (3 : ℚ) = 3 := by exact_mod_cast round1_intCast 3
    rw [hr1, hr2]

theorem intervalAggregator_correct_witness :
    ((0, "週一", "09:00-09:15"), (5 : ℚ)) ∈ aggregate aggExample ∧
    aggExample.filter (fun r => recordKey r == (0, "週一", "09:00-09:15")) ≠ [] ∧
    (5 : ℚ) = round1 (meanOcc (aggExample.filter
      (fun r => recordKey r == (0, "週一", "09:00-09:15")))) := by
  have hmem : ((0, "週一", "09:00-09:15"), (5 : ℚ)) ∈ aggregate aggExample := by
    rw [intervalAggregator_correct.2]
    exact List.mem_cons_self _ _
  exact ⟨hmem, intervalAggregator_correct.1 aggExample _ 5 hmem⟩

theorem flatten_filterMap_getD {α β : Type} (l : List α) (f : α → Option (List β)) :
    (l.filterMap f).flatten = (l.map (fun a => (f a).getD [])).flatten := by
  induction l with
  | nil => rfl
  | cons a t ih =>
    rw [List.filterMap_cons, List.map_cons, List.flatten_cons]
    cases hf : f a with
    | none => simpa [hf] using ih
    | some x => simp [hf, List.flatten_cons, ih]

theorem combinedOf_eq (results : List (Int × List OccupancyRecord)) :
    combinedOf results =
      ((List.range 5).map (fun wd => selData results wd)).flatten := by
  unfold combinedOf allLatestData selData
  rw [flatten_filterMap_getD]

theorem weekdayDataByWeek_snd (results : List (Int × List OccupancyRecord))
    (wd : Nat) :
    ∀ p ∈ weekdayDataByWeek results wd, ∀ r ∈ p.2, r.weekday = wd := by
  intro p hp r hr
  rcases List.mem_filterMap.mp hp with ⟨q, hq, hstep⟩
  by_cases he : (q.2.filter (fun r => r.weekday == wd)).isEmpty
  · rw [if_pos he] at hstep
    cases hstep
  · rw [if_neg he] at hstep
    cases hstep
    have := (List.mem_filter.mp hr).2
    simpa using this

theorem selData_weekday (results : List (Int × List OccupancyRecord)) (wd : Nat) :
    ∀ r ∈ selData results wd, r.weekday = wd := by
  intro r hr
  unfold selData latestPair at hr
  cases hh : (weekdayDataByWeek results wd).head? with
  | none => rw [hh] at hr; simp at hr
  | some p =>
    rw [hh] at hr
    simp only [Option.map_some', Option.getD_some] at hr
    have hp : p ∈ weekdayDataByWeek results wd := by
      cases hlist : weekdayDataByWeek results wd with
      | nil => rw [hlist] at hh; cases hh
      | cons a t =>
        rw [hlist] at hh
        simp only [List.head?_cons, Option.some.injEq] at hh
        rw [← hh]
        exact List.mem_cons_self a t
    exact weekdayDataByWeek_snd results wd p hp r hr

theorem selData_filter_self (results : List (Int × List OccupancyRecord))
    (wd : Nat) :
    (selData results wd).filter (fun r => r.weekday == wd) = selData results wd :=
  List.filter_eq_self.mpr (fun r hr => by simp [selData_weekday results wd r hr])

theorem selData_filter_ne (results : List (Int × List OccupancyRecord))
    (wd wd' : Nat) (h : wd ≠ wd') :
    (selData results wd).filter (fun r => r.weekday == wd') = [] :=
  List.filter_eq_nil_iff.mpr
    (fun r hr => by simp [selData_weekday results wd r hr, h])

theorem combined_filter_weekday (results : List (Int × List OccupancyRecord))
    (wd : Nat) (h5 : wd < 5) :
    (combinedOf results).filter (fun r => r.weekday == wd) =
      selData results wd := by
  rw [combinedOf_eq]
  rw [show List.range 5 = [0, 1, 2, 3, 4] from rfl]
  simp only [List.map_cons, List.map_nil, List.flatten_cons, List.flatten_nil,
    List.filter_append, List.filter_nil]
  rcases (by omega : wd = 0 ∨ wd = 1 ∨ wd = 2 ∨ wd = 3 ∨ wd = 4) with h | h | h | h | h <;>
    subst h <;>
    simp [selData_filter_self, selData_filter_ne]

theorem mem_combined_weekday_lt5 (results : List (Int × List OccupancyRecord))
    (r : OccupancyRecord) (hr : r ∈ combinedOf results) : r.weekday < 5 := by
  rw [combinedOf_eq] at hr
  rcases List.mem_flatten.mp hr with ⟨l, hl, hrl⟩
  rcases List.mem_map.mp hl with ⟨wd, hwd, rfl⟩
  have hwd5 := List.mem_range.mp hwd
  have := selData_weekday results wd r hrl
  omega

/-- C3: every aggregated bucket value equals the rounded arithmetic mean of
`occupancy_count` over exactly the records sharing `(weekday, time_interval)`
within the single week selected for that weekday; other weeks' records never
contribute to the bucket, even though the per-weekday selections are
concatenated into one frame before the groupby.  (The groupby key also
carries the `weekday_zh` label, so we assume the label is consistent per
weekday across the fetched data, as the store writes it.) -/
theorem weekdayProfile_single_week_mean
    (results : List (Int × List OccupancyRecord))
    (hzh : ∀ r ∈ combinedOf results, ∀ r' ∈ combinedOf results,
      r.weekday = r'.weekday → r.weekday_zh = r'.weekday_zh) :
    ∀ (wd : Nat) (zh ti : String) (v : ℚ),
      ((wd, zh, ti), v) ∈ aggregate (combinedOf results) →
      wd < 5 ∧
      v = round1 (meanOcc ((selData results wd).filter
            (fun r => r.time_interval == ti))) := by
  intro wd zh ti v hmem
  rcases List.mem_map.mp hmem with ⟨k', hk', heq⟩
  have hkk : k' = (wd, zh, ti) := congrArg Prod.fst heq
  have hv : v = round1 (meanOcc ((combinedOf results).filter
      (fun r => recordKey r == k'))) := (congrArg Prod.snd heq).symm
  subst hkk
  obtain ⟨r0, hr0, hr0k⟩ := List.mem_map.mp (List.mem_dedup.mp hk')
  have h0wd : r0.weekday = wd := by
    have := congrArg Prod.fst hr0k
    simpa [recordKey] using this
  have h0zh : r0.weekday_zh = zh := by
    have := congrArg (fun p => p.2.1) hr0k
    simpa [recordKey] using this
  have h5 : wd < 5 := h0wd ▸ mem_combined_weekday_lt5 results r0 hr0
  refine ⟨h5, ?_⟩
  rw [hv]
  have hpt : ∀ r ∈ combinedOf results,
      (recordKey r == ((wd, zh, ti) : Nat × String × String)) =
      ((r.time_interval == ti) && (r.weekday == wd)) := by
    intro r hr
    rw [Bool.eq_iff_iff]
    simp only [beq_iff_eq, Bool.and_eq_true, recordKey, Prod.mk.injEq]
    constructor
    · rintro ⟨h1, _, h3⟩
      exact ⟨h3, h1⟩
    · rintro ⟨h3, h1⟩
      refine ⟨h1, ?_, h3⟩
      have := hzh r hr r0 hr0 (by rw [h1, ← h0wd])
      rw [this, h0zh]
  have hchain : (combinedOf results).filter
      (fun r => recordKey r == ((wd, zh, ti) : Nat × String × String)) =
      (selData results wd).filter (fun r => r.time_interval == ti) := by
    rw [List.filter_congr hpt]
    rw [← List.filter_filter, combined_filter_weekday results wd h5]
  rw [hchain]

theorem weekdayProfile_single_week_mean_witness :
    (∀ r ∈ combinedOf resultsC3, ∀ r' ∈ combinedOf resultsC3,
      r.weekday = r'.weekday → r.weekday_zh = r'.weekday_zh) ∧
    (((0, "週一", "09:00-09:15"), (5 : ℚ)) ∈ aggregate (combinedOf resultsC3) ∧
     (0 < 5 ∧
      (5 : ℚ) = round1 (meanOcc ((selData resultsC3 0).filter
        (fun r => r.time_interval == "09:00-09:15"))))) := by
  have hcomb : combinedOf resultsC3 =
      [⟨"a", 0, "週一", "09:00-09:15", 4⟩, ⟨"b", 0, "週一", "09:00-09:15", 6⟩] := by
    decide
  have hagg : aggregate (combinedOf resultsC3) =
      [((0, "週一", "09:00-09:15"), (5 : ℚ))] := by
    rw [hcomb]
    have hkeys : (([⟨"a", 0, "週一", "09:00-09:15", 4⟩,
        ⟨"b", 0, "週一", "09:00-09:15", 6⟩] : List OccupancyRecord).map
          recordKey).dedup = [(0, "週一", "09:00-09:15")] := by decide
    unfold aggregate
    rw [hkeys]
    simp only [List.map_cons, List.map_nil]
    have hf : ([⟨"a", 0, "週一", "09:00-09:15", 4⟩,
        ⟨"b", 0, "週一", "09:00-09:15", 6⟩] : List OccupancyRecord).filter
          (fun r => recordKey r == (0, "週一", "09:00-09:15")) =
        [⟨"a", 0, "週一", "09:00-09:15", 4⟩, ⟨"b", 0, "週一", "09:00-09:15", 6⟩] := by
      decide
    rw [hf]
    have hm : meanOcc [⟨"a", 0, "週一", "09:00-09:15", 4⟩,
        ⟨"b", 0, "週一", "09:00-09:15", 6⟩] = 5 := by
      simp [meanOcc]
      norm_num
    rw [hm]
    have hr1 : round1 (5 : ℚ) = 5 := by exact_mod_cast round1_intCast 5
    rw [hr1]
  have hzh : ∀ r ∈ combinedOf resultsC3, ∀ r' ∈ combinedOf resultsC3,
      r.weekday = r'.weekday → r.weekday_zh = r'.weekday_zh := by
    rw [hcomb]
    decide
  have hmem : ((0, "週一", "09:00-09:15"), (5 : ℚ)) ∈ aggregate (combinedOf resultsC3) := by
    rw [hagg]
    exact List.mem_cons_self _ _
  exact ⟨hzh, hmem,
    weekdayProfile_single_week_mean resultsC3 hzh 0 "週一" "09:00-09:15" 5 hmem⟩

theorem collectWeeks_error_of_mem
    (fetch : Int → Except Unit (Option (List OccupancyRecord)))
    (weeks : List Int) (h : ∃ w ∈ weeks, fetch w = Except.error ()) :
    collectWeeks fetch weeks = Except.error () := by
  induction weeks with
  | nil => simp at h
  | cons w rest ih =>
    rcases h with ⟨w', hw', herr⟩
    rw [collectWeeks]
    rcases List.mem_cons.mp hw' with heq | hmem
    · subst heq
      rw [herr]
    · cases hf : fetch w with
      | error e => rfl
      | ok data =>
        rw [ih ⟨w', hmem, herr⟩]

/-- C5 counterexample: with week 40 holding data and week 39 raising a
transport error, the whole weekday-profile computation returns `none` —
the healthy week's data does not reach the output, contradicting "other
weeks' data still reach the output". -/
theorem weekFetchFailure_counterexample :
    fetchEx 40 = Except.ok (some [⟨"d1", 0, "週一", "09:00-09:15", 4⟩]) ∧
    fetchEx 39 = Except.error () ∧
    (40 : Int) ∈ weeksToFetch 12 40 ∧ (39 : Int) ∈ weeksToFetch 12 40 ∧
    getWeekdayAggregatedOccupancy fetchEx 40 = none := by
  refine ⟨rfl, rfl, by decide, by decide, ?_⟩
  rfl

/-- C5 amended: a transport or store-access failure while reading any single
week is caught, but it is not recovered locally: the entire weekday-profile
computation for that cycle degrades to the no-data result (`none`), and no
other week's data reaches the output that cycle. -/
theorem weekFetchFailure_aborts
    (fetch : Int → Except Unit (Option (List OccupancyRecord))) (W : Int)
    (h : ∃ w ∈ weeksToFetch 12 W, fetch w = Except.error ()) :
    getWeekdayAggregatedOccupancy fetch W = none := by
  unfold getWeekdayAggregatedOccupancy
  rw [collectWeeks_error_of_mem fetch _ h]

theorem weekFetchFailure_aborts_witness :
    (∃ w ∈ weeksToFetch 12 40, fetchEx w = Except.error ()) ∧
    getWeekdayAggregatedOccupancy fetchEx 40 = none :=
  ⟨⟨39, by decide, rfl⟩, weekFetchFailure_aborts fetchEx 40 ⟨39, by decide, rfl⟩⟩

theorem foldl_max_assoc (l : List ℚ) : ∀ (a b : ℚ),
    l.foldl max (max a b) = max a (l.foldl max b) := by
  induction l with
  | nil => intro a b; rfl
  | cons c t ih =>
    intro a b
    rw [List.foldl_cons, List.foldl_cons, max_assoc, ih]

theorem foldl_maxf_eq (l : List ChartRow) (acc : ℚ) (h : l ≠ []) :
    l.foldl (fun m r => max m r.occupancy_count) acc = max acc (rowsMax l) := by
  cases l with
  | nil => exact absurd rfl h
  | cons x xs =>
    rw [List.foldl_cons]
    have hmap : ∀ (z : ℚ), xs.foldl (fun m r => max m r.occupancy_count) z =
        (xs.map (fun r => r.occupancy_count)).foldl max z := by
      intro z
      rw [List.foldl_map]
    rw [hmap, foldl_max_assoc]
    rfl

theorem maxStep_eq (d : List (Nat × List ChartRow)) (acc : ℚ) (wd : Nat) :
    maxStep d acc wd =
      (filteredRows d wd).foldl (fun m r => max m r.occupancy_count) acc := by
  unfold maxStep filteredRows
  cases hd : dictGet d wd with
  | none => rfl
  | some rows =>
    simp only [Option.getD_some]
    by_cases he : (rows.filter inHourRange).isEmpty
    · rw [if_pos he]
      have hnil : rows.filter inHourRange = [] := by
        simpa [List.isEmpty_iff] using he
      rw [hnil]
      rfl
    · rw [if_neg he]
      have hne : rows.filter inHourRange ≠ [] := by
        simpa [List.isEmpty_iff] using he
      rw [foldl_maxf_eq _ _ hne]
      rcases le_or_lt (rowsMax (rows.filter inHourRange)) acc with hle | hlt
      · rw [if_neg (not_lt.mpr hle), max_eq_left hle]
      · rw [if_pos hlt, max_eq_right hlt.le]

theorem allMaxOccupancy_eq (d : List (Nat × List ChartRow)) :
    allMaxOccupancy d =
      ((List.range 5).map (fun wd => filteredRows d wd)).flatten.foldl
        (fun m r => max m r.occupancy_count) 1 := by
  have key : ∀ (ws : List Nat) (acc : ℚ),
      ws.foldl (maxStep d) acc =
        ((ws.map (fun wd => filteredRows d wd)).flatten).foldl
          (fun m r => max m r.occupancy_count) acc := by
    intro ws
    induction ws with
    | nil => intro acc; rfl
    | cons w t ih =>
      intro acc
      rw [List.foldl_cons, ih, List.map_cons, List.flatten_cons,
        List.foldl_append, maxStep_eq]
  exact key (List.range 5) 1

theorem le_foldl_maxf (l : List ChartRow) : ∀ (a : ℚ),
    a ≤ l.foldl (fun m r => max m r.occupancy_count) a := by
  induction l with
  | nil => intro a; exact le_refl a
  | cons x xs ih =>
    intro a
    exact le_trans (le_max_left a x.occupancy_count)
      (ih (max a x.occupancy_count))

theorem one_le_allMaxOccupancy (d : List (Nat × List ChartRow)) :
    1 ≤ allMaxOccupancy d := by
  rw [allMaxOccupancy_eq]
  exact le_foldl_maxf _ 1

theorem allMaxOccupancy_pos (d : List (Nat × List ChartRow)) :
    0 < allMaxOccupancy d :=
  lt_of_lt_of_le one_pos (one_le_allMaxOccupancy d)

theorem allMax_chartEx00 : allMaxOccupancy chartEx00 = 1 := by decide

theorem allMax_chartEx28 : allMaxOccupancy chartEx28 = 8 := by decide

theorem allMax_chartExSplit : allMaxOccupancy chartExSplit = 8 := by decide

theorem displayCharts_chartEx00_eval :
    displayCharts chartEx00 =
      [(0, [⟨0, 0, "#94a3b8"⟩, ⟨1, 0, "#94a3b8"⟩]),
       (1, []), (2, []), (3, []), (4, [])] := by
  unfold displayCharts
  rw [show List.range 5 = [0, 1, 2, 3, 4] from rfl]
  simp only [List.map_cons, List.map_nil]
  unfold renderWeekday
  rw [allMax_chartEx00]
  rw [show filteredRows chartEx00 0 = [⟨9, 0, 0⟩, ⟨10, 0, 0⟩] from by decide,
    show filteredRows chartEx00 1 = [] from by decide,
    show filteredRows chartEx00 2 = [] from by decide,
    show filteredRows chartEx00 3 = [] from by decide,
    show filteredRows chartEx00 4 = [] from by decide]
  norm_num [renderRow]

theorem displayCharts_chartEx28_eval :
    displayCharts chartEx28 =
      [(0, [⟨0, 0.2, "#94a3b8"⟩, ⟨1, 0.8, "#d946a6"⟩]),
       (1, []), (2, []), (3, []), (4, [])] := by
  unfold displayCharts
  rw [show List.range 5 = [0, 1, 2, 3, 4] from rfl]
  simp only [List.map_cons, List.map_nil]
  unfold renderWeekday
  rw [allMax_chartEx28]
  rw [show filteredRows chartEx28 0 = [⟨9, 0, 2⟩, ⟨10, 0, 8⟩] from by decide,
    show filteredRows chartEx28 1 = [] from by decide,
    show filteredRows chartEx28 2 = [] from by decide,
    show filteredRows chartEx28 3 = [] from by decide,
    show filteredRows chartEx28 4 = [] from by decide]
  norm_num [renderRow]

theorem displayCharts_chartExSplit_eval :
    displayCharts chartExSplit =
      [(0, [⟨0, 0.2, "#94a3b8"⟩]), (1, [⟨0, 0.8, "#d946a6"⟩]),
       (2, []), (3, []), (4, [])] := by
  unfold displayCharts
  rw [show List.range 5 = [0, 1, 2, 3, 4] from rfl]
  simp only [List.map_cons, List.map_nil]
  unfold renderWeekday
  rw [allMax_chartExSplit]
  rw [show filteredRows chartExSplit 0 = [⟨9, 0, 2⟩] from by decide,
    show filteredRows chartExSplit 1 = [⟨9, 0, 8⟩] from by decide,
    show filteredRows chartExSplit 2 = [] from by decide,
    show filteredRows chartExSplit 3 = [] from by decide,
    show filteredRows chartExSplit 4 = [] from by decide]
  norm_num [renderRow]

/-- C4 counterexample: the claim's per-chart `maxVal` is wrong for this
code.  With count 2 on weekday 0's chart and count 8 on weekday 1's chart,
the claim's formula gives weekday 0's point height
`(2 / maxVal([2])) * 0.8 = 0.8`, but the rendered height is `0.2` because
the code shares one `all_max_occupancy` (here 8) across all five charts. -/
theorem chartNormalizer_per_chart_counterexample :
    dictGet (displayCharts chartExSplit) 0 = some [⟨0, 0.2, "#94a3b8"⟩] ∧
    specHeight 2 [2] = 0.8 ∧
    (0.2 : ℚ) ≠ 0.8 := by
  refine ⟨?_, ?_, by norm_num⟩
  · rw [displayCharts_chartExSplit_eval]
    rfl
  · unfold specHeight chartMaxValSpec qMax
    norm_num

/-- C4 amended: the normalization maximum is shared, not per chart: the code
computes `all_max_occupancy` as the maximum of the seed 1 and every in-range
occupancy count across all five weekday charts; every rendered point's
height is `occupancy_count / all_max_occupancy * 0.8` and its color tier is
peak (`"#d946a6"`) exactly when `occupancy_count ≥ 0.8 * all_max_occupancy`;
for in-range counts `[0, 0]` both heights are 0 with no division by zero,
and for counts `[2, 8]` on one chart the heights are `[0.2, 0.8]` with the
second point peak. -/
theorem chartNormalizer_shared_max_correct :
    (∀ d, allMaxOccupancy d =
      ((List.range 5).map (fun wd => filteredRows d wd)).flatten.foldl
        (fun m r => max m r.occupancy_count) 1) ∧
    (∀ (d : List (Nat × List ChartRow)) (wd : Nat)
        (shapes : List ChartShape) (s : ChartShape),
      (wd, shapes) ∈ displayCharts d → s ∈ shapes →
      ∃ r ∈ filteredRows d wd,
        s.height = r.occupancy_count / allMaxOccupancy d * 0.8 ∧
        (s.color = "#d946a6" ↔ r.occupancy_count ≥ allMaxOccupancy d * 0.8)) ∧
    displayCharts chartEx00 =
      [(0, [⟨0, 0, "#94a3b8"⟩, ⟨1, 0, "#94a3b8"⟩]),
       (1, []), (2, []), (3, []), (4, [])] ∧
    displayCharts chartEx28 =
      [(0, [⟨0, 0.2, "#94a3b8"⟩, ⟨1, 0.8, "#d946a6"⟩]),
       (1, []), (2, []), (3, []), (4, [])] := by
  refine ⟨allMaxOccupancy_eq, ?_, displayCharts_chartEx00_eval,
    displayCharts_chartEx28_eval⟩
  intro d wd shapes s hmem hs
  rcases List.mem_map.mp hmem with ⟨wd', hwd', heq⟩
  have hwd : wd' = wd := congrArg Prod.fst heq
  have hshapes : shapes = renderWeekday d wd' := (congrArg Prod.snd heq).symm
  subst hwd
  rw [hshapes] at hs
  unfold renderWeekday at hs
  rcases List.mem_map.mp hs with ⟨r, hr, hrs⟩
  refine ⟨r, hr, ?_, ?_⟩
  · rw [← hrs]
    unfold renderRow
    simp only
    rw [if_pos (allMaxOccupancy_pos d)]
  · rw [← hrs]
    unfold renderRow
    simp only
    by_cases hc1 : r.occupancy_count ≥ allMaxOccupancy d * 0.8
    · rw [if_pos hc1]
      exact ⟨fun _ => hc1, fun _ => rfl⟩
    · rw [if_neg hc1]
      constructor
      · intro hcol
        rw [ite_self] at hcol
        exact absurd hcol (by decide)
      · intro hge
        exact absurd hge hc1

theorem chartNormalizer_shared_max_correct_witness :
    (0, [(⟨0, 0.2, "#94a3b8"⟩ : ChartShape), ⟨1, 0.8, "#d946a6"⟩]) ∈
      displayCharts chartEx28 ∧
    (⟨1, 0.8, "#d946a6"⟩ : ChartShape) ∈
      [(⟨0, 0.2, "#94a3b8"⟩ : ChartShape), ⟨1, 0.8, "#d946a6"⟩] ∧
    ∃ r ∈ filteredRows chartEx28 0,
      (0.8 : ℚ) = r.occupancy_count / allMaxOccupancy chartEx28 * 0.8 ∧
      ("#d946a6" = "#d946a6" ↔ r.occupancy_count ≥ allMaxOccupancy chartEx28 * 0.8) := by
  have hmem : (0, [(⟨0, 0.2, "#94a3b8"⟩ : ChartShape), ⟨1, 0.8, "#d946a6"⟩]) ∈
      displayCharts chartEx28 := by
    rw [displayCharts_chartEx28_eval]
    exact List.mem_cons_self _ _
  have hs : (⟨1, 0.8, "#d946a6"⟩ : ChartShape) ∈
      [(⟨0, 0.2, "#94a3b8"⟩ : ChartShape), ⟨1, 0.8, "#d946a6"⟩] :=
    List.mem_cons_of_mem _ (List.mem_cons_self _ _)
  exact ⟨hmem, hs,
    chartNormalizer_shared_max_correct.2.1 chartEx28 0 _ _ hmem hs⟩

theorem dictGet_restrict (d : List (Nat × List ChartRow)) (wd : Nat) :
    dictGet (restrictInRange d) wd =
      (dictGet d wd).map (fun rows => rows.filter inHourRange) := by
  induction d with
  | nil => rfl
  | cons p t ih =>
    unfold dictGet restrictInRange
    unfold dictGet restrictInRange at ih
    rw [List.map_cons, List.find?_cons, List.find?_cons]
    cases hp : p.1 == wd with
    | true => rfl
    | false => exact ih

theorem filteredRows_restrict (d : List (Nat × List ChartRow)) (wd : Nat) :
    filteredRows (restrictInRange d) wd = filteredRows d wd := by
  unfold filteredRows
  rw [dictGet_restrict]
  cases hd : dictGet d wd with
  | none => rfl
  | some rows =>
    simp only [Option.map_some', Option.getD_some]
    rw [List.filter_filter]
    exact List.filter_congr (fun r _ => Bool.and_self (inHourRange r))

theorem allMax_restrict (d : List (Nat × List ChartRow)) :
    allMaxOccupancy (restrictInRange d) = allMaxOccupancy d := by
  rw [allMaxOccupancy_eq, allMaxOccupancy_eq]
  congr 2
  exact List.map_congr_left (fun wd _ => filteredRows_restrict d wd)

theorem displayCharts_restrict (d : List (Nat × List ChartRow)) :
    displayCharts (restrictInRange d) = displayCharts d := by
  unfold displayCharts
  refine List.map_congr_left (fun wd _ => ?_)
  unfold renderWeekday
  rw [filteredRows_restrict, allMax_restrict]

/-- C9: only buckets whose interval start hour `h` satisfies `9 ≤ h < 21`
are rendered, the shared normalization maximum is computed over the same
restriction across all five weekdays, and a record outside that hour range
never affects any rendered bucket or any height: the whole display output
is invariant under removing out-of-range rows, and the input with a single
hour-8 row renders no bar and keeps the maximum at its seed 1. -/
theorem chartHourFilter_correct :
    (∀ d, displayCharts (restrictInRange d) = displayCharts d) ∧
    (∀ d, allMaxOccupancy (restrictInRange d) = allMaxOccupancy d) ∧
    (∀ (d : List (Nat × List ChartRow)) (wd : Nat)
        (shapes : List ChartShape) (s : ChartShape),
      (wd, shapes) ∈ displayCharts d → s ∈ shapes →
      ∃ r ∈ filteredRows d wd, inHourRange r = true ∧
        s = renderRow (allMaxOccupancy d) r) ∧
    displayCharts chartExOut = [(0, []), (1, []), (2, []), (3, []), (4, [])] ∧
    allMaxOccupancy chartExOut = 1 := by
  refine ⟨displayCharts_restrict, allMax_restrict, ?_, by decide, by decide⟩
  intro d wd shapes s hmem hs
  rcases List.mem_map.mp hmem with ⟨wd', hwd', heq⟩
  have hwd : wd' = wd := congrArg Prod.fst heq
  have hshapes : shapes = renderWeekday d wd' := (congrArg Prod.snd heq).symm
  subst hwd
  rw [hshapes] at hs
  unfold renderWeekday at hs
  rcases List.mem_map.mp hs with ⟨r, hr, hrs⟩
  exact ⟨r, hr, (List.mem_filter.mp hr).2, hrs.symm⟩

theorem chartHourFilter_correct_witness :
    (0, [(⟨0, 0, "#94a3b8"⟩ : ChartShape), ⟨1, 0, "#94a3b8"⟩]) ∈
      displayCharts chartEx00 ∧
    (⟨0, 0, "#94a3b8"⟩ : ChartShape) ∈
      [(⟨0, 0, "#94a3b8"⟩ : ChartShape), ⟨1, 0, "#94a3b8"⟩] ∧
    ∃ r ∈ filteredRows chartEx00 0, inHourRange r = true ∧
      (⟨0, 0, "#94a3b8"⟩ : ChartShape) = renderRow (allMaxOccupancy chartEx00) r := by
  have hmem : (0, [(⟨0, 0, "#94a3b8"⟩ : ChartShape), ⟨1, 0, "#94a3b8"⟩]) ∈
      displayCharts chartEx00 := by
    rw [displayCharts_chartEx00_eval]
    exact List.mem_cons_self _ _
  have hs : (⟨0, 0, "#94a3b8"⟩ : ChartShape) ∈
      [(⟨0, 0, "#94a3b8"⟩ : ChartShape), ⟨1, 0, "#94a3b8"⟩] :=
    List.mem_cons_self _ _
  exact ⟨hmem, hs, chartHourFilter_correct.2.2.1 chartEx00 0 _ _ hmem hs⟩

/-- C7: the Live Status Summarizer returns `total` = number of seats,
`occupied` = number of seats with status `"occupied"`,
`available = total - occupied`, and `occupancy_rate = occupied/total*100`
(0 when total is 0); the color band is low (green) when `rate ≤ 30`, medium
(yellow) when `30 < rate ≤ 70`, and high (red) otherwise; 16 seats with 5
occupied yield total 16, occupied 5, available 11, rate 31.25 and the
medium band. -/
theorem liveStatusSummarizer_correct :
    (∀ df : List Seat,
      totalSeats df = df.length ∧
      occupiedSeats df = (df.filter (fun s => s.status == "occupied")).length ∧
      availableSeats df = totalSeats df - occupiedSeats df ∧
      (totalSeats df = 0 → occupancyRate df = 0) ∧
      (0 < totalSeats df →
        occupancyRate df = (occupiedSeats df : ℚ) / (totalSeats df : ℚ) * 100) ∧
      (rateColor df = "#51cf66" ↔ occupancyRate df ≤ 30) ∧
      (rateColor df = "#ffd43b" ↔
        (30 < occupancyRate df ∧ occupancyRate df ≤ 70)) ∧
      (rateColor df = "#ff6b6b" ↔ 70 < occupancyRate df)) ∧
    (totalSeats dfEx16 = 16 ∧ occupiedSeats dfEx16 = 5 ∧
     availableSeats dfEx16 = 11 ∧ occupancyRate dfEx16 = 125/4 ∧
     rateColor dfEx16 = "#ffd43b") := by
  have hband : ∀ df : List Seat,
      (rateColor df = "#51cf66" ↔ occupancyRate df ≤ 30) ∧
      (rateColor df = "#ffd43b" ↔
        (30 < occupancyRate df ∧ occupancyRate df ≤ 70)) ∧
      (rateColor df = "#ff6b6b" ↔ 70 < occupancyRate df) := by
    intro df
    unfold rateColor
    by_cases h30 : occupancyRate df ≤ 30
    · rw [if_pos h30]
      refine ⟨⟨fun _ => h30, fun _ => rfl⟩, ?_, ?_⟩
      · constructor
        · intro hcol
          exact absurd hcol (by decide)
        · intro hc
          exact absurd h30 (not_le.mpr hc.1)
      · constructor
        · intro hcol
          exact absurd hcol (by decide)
        · intro hc
          exact absurd h30 (not_le.mpr (lt_trans (by norm_num) hc))
    · rw [if_neg h30]
      by_cases h70 : occupancyRate df ≤ 70
      · rw [if_pos h70]
        refine ⟨?_, ⟨fun _ => ⟨not_le.mp h30, h70⟩, fun _ => rfl⟩, ?_⟩
        · constructor
          · intro hcol
            exact absurd hcol (by decide)
          · intro hc
            exact absurd hc h30
        · constructor
          · intro hcol
            exact absurd hcol (by decide)
          · intro hc
            exact absurd h70 (not_le.mpr hc)
      · rw [if_neg h70]
        refine ⟨?_, ?_, ⟨fun _ => not_le.mp h70, fun _ => rfl⟩⟩
        · constructor
          · intro hcol
            exact absurd hcol (by decide)
          · intro hc
            exact absurd (le_trans hc (by norm_num)) h70
        · constructor
          · intro hcol
            exact absurd hcol (by decide)
          · intro hc
            exact absurd hc.2 h70
  have hrate16 : occupancyRate dfEx16 = 125/4 := by
    unfold occupancyRate
    rw [if_pos (by decide : totalSeats dfEx16 > 0)]
    rw [show occupiedSeats dfEx16 = 5 from by decide,
      show totalSeats dfEx16 = 16 from by decide]
    norm_num
  refine ⟨?_, by decide, by decide, by decide, hrate16, ?_⟩
  · intro df
    refine ⟨rfl, rfl, rfl, ?_, ?_, hband df⟩
    · intro h0
      unfold occupancyRate
      rw [if_neg (by omega)]
    · intro hpos
      unfold occupancyRate
      rw [if_pos hpos]
  · exact ((hband dfEx16).2.1).mpr (by rw [hrate16]; norm_num)

theorem liveStatusSummarizer_correct_witness :
    occupancyRate ([] : List Seat) = 0 ∧
    occupancyRate dfEx16 = (occupiedSeats dfEx16 : ℚ) / (totalSeats dfEx16 : ℚ) * 100 :=
  ⟨(liveStatusSummarizer_correct.1 []).2.2.2.1 rfl,
   (liveStatusSummarizer_correct.1 dfEx16).2.2.2.2.1 (by decide)⟩

/-- C10: every seat identifier of the fixed 16-seat layout that is absent
from the fetched snapshot is given status `'available'` and rendered as a
vacant (green, `空位`) seat — never an error/unknown/missing state — and a
marker is rendered occupied (red, `佔用`) exactly when its looked-up
snapshot status equals `"occupied"`; concretely, with a snapshot naming
only W1 (occupied) and W2 (status `"unknown"`), the absent W3 defaults to
`"available"` and both W2 and W3 render as vacant seats. -/
theorem seatMap_default_available :
    (∀ (df : List Seat) (sid : String),
      df.find? (fun s => s.seat_id == sid) = none →
      lookupStatus df sid = "available") ∧
    (∀ (df : List Seat) (m : SeatMarker), m ∈ seatData df →
      ((m.color = "#ff6b6b" ∧ m.status_label = "佔用") ↔
        lookupStatus df m.seat_id = "occupied")) ∧
    seatPositions.length = 16 ∧
    lookupStatus dfC10 "W3" = "available" ∧
    (((seatData dfC10).filter (fun m => m.seat_id == "W1")).map
      (fun m => (m.status_label, m.color))) = [("佔用", "#ff6b6b")] ∧
    (((seatData dfC10).filter (fun m => m.seat_id == "W2")).map
      (fun m => (m.status_label, m.color))) = [("空位", "#51cf66")] ∧
    (((seatData dfC10).filter (fun m => m.seat_id == "W3")).map
      (fun m => (m.status_label, m.color))) = [("空位", "#51cf66")] := by
  refine ⟨?_, ?_, by decide, by decide, by decide, by decide, by decide⟩
  · intro df sid hfind
    unfold lookupStatus
    rw [hfind]
  · intro df m hm
    rcases List.mem_map.mp hm with ⟨p, hp, hmp⟩
    subst hmp
    simp only
    cases hocc : lookupStatus df p.1 == "occupied" with
    | true =>
      have heq : lookupStatus df p.1 = "occupied" := by simpa using hocc
      simp [heq]
    | false =>
      have hne : ¬ lookupStatus df p.1 = "occupied" := by simpa using hocc
      simp only [if_neg (by simp : ¬(false = true))]
      constructor
      · intro hc
        exact absurd hc.1 (by decide)
      · intro hc
        exact absurd hc hne

theorem seatMap_default_available_witness :
    lookupStatus dfC10 "W5" = "available" ∧
    (((⟨"W1", 1, 5, "佔用", "#ff6b6b", 40⟩ : SeatMarker).color = "#ff6b6b" ∧
      (⟨"W1", 1, 5, "佔用", "#ff6b6b", 40⟩ : SeatMarker).status_label = "佔用") ↔
      lookupStatus dfC10 (⟨"W1", 1, 5, "佔用", "#ff6b6b", 40⟩ : SeatMarker).seat_id =
        "occupied") :=
  ⟨seatMap_default_available.1 dfC10 "W5" (by decide),
   seatMap_default_available.2.1 dfC10 ⟨"W1", 1, 5, "佔用", "#ff6b6b", 40⟩ (by decide)⟩

end SeatLive
